import Mathlib

/-!
Shallow embedding of the physics kernel of the Solar_System repository
(src/Sphere.cpp, src/Sphere.h): `Sphere::updatePhysics` and
`Sphere::calculateGravitationalForces` over `std::vector<SpherePhysics>`,
with `float`/`double` arithmetic modelled by the real numbers.
-/

noncomputable section

/-- The `struct SpherePhysics` of src/Sphere.h: position, 3D velocity,
radius, mass, and a rendering color (glm::vec3). -/
structure SpherePhysics where
  x : ℝ
  y : ℝ
  z : ℝ
  velocityX : ℝ
  velocityY : ℝ
  velocityZ : ℝ
  radius : ℝ
  mass : ℝ
  color : ℝ × ℝ × ℝ

/-- The `struct PhysicsConfig` of src/Sphere.h. -/
structure PhysicsConfig where
  enableBounce : Bool
  bounceDamping : ℝ
  enableGravity : Bool
  gravity : ℝ
  deltaTime : ℝ
  bottomBoundary : ℝ
  topBoundary : ℝ
  distanceScale : ℝ
  gravitationalConstant : ℝ

/-- The default member initializers of `PhysicsConfig` in src/Sphere.h. -/
def defaultConfig : PhysicsConfig :=
  { enableBounce := true
    bounceDamping := 1
    enableGravity := true
    gravity := 9.8
    deltaTime := 1 / 60
    bottomBoundary := -2
    topBoundary := 2
    distanceScale := 100
    gravitationalConstant := 6.67430e-11 }

/-- The clamp `std::max(-maxVelocity, std::min(maxVelocity, v))` with
`maxVelocity = 10.0f` (Sphere.cpp lines 204-211). -/
def clampV (v : ℝ) : ℝ := max (-10) (min 10 v)

/-- One inner-loop iteration of `Sphere::calculateGravitationalForces`
(Sphere.cpp lines 170-221) acting on the pair `(sphere1, sphere2)`:
compute the displacement, and if the distance is positive add the
acceleration `Gforce / sphere1.mass` along the unit direction (times
`deltaTime`) to `sphere1`'s velocity, subtract the same quantity from
`sphere2`'s velocity, and clamp all six velocity components. -/
def gravPair (config : PhysicsConfig) (sphere1 sphere2 : SpherePhysics) :
    SpherePhysics × SpherePhysics :=
  let dx := sphere2.x - sphere1.x
  let dy := sphere2.y - sphere1.y
  let dz := sphere2.z - sphere1.z
  let distance := Real.sqrt (dx * dx + dy * dy + dz * dz)
  if 0 < distance then
    let dir0 := dx / distance
    let dir1 := dy / distance
    let dir2 := dz / distance
    let sdist := distance * config.distanceScale
    let Gforce := config.gravitationalConstant * sphere1.mass * sphere2.mass /
      (sdist * sdist)
    let acc1 := Gforce / sphere1.mass
    let a0 := dir0 * acc1
    let a1 := dir1 * acc1
    let a2 := dir2 * acc1
    ({ sphere1 with
        velocityX := clampV (sphere1.velocityX + a0 * config.deltaTime)
        velocityY := clampV (sphere1.velocityY + a1 * config.deltaTime)
        velocityZ := clampV (sphere1.velocityZ + a2 * config.deltaTime) },
     { sphere2 with
        velocityX := clampV (sphere2.velocityX - a0 * config.deltaTime)
        velocityY := clampV (sphere2.velocityY - a1 * config.deltaTime)
        velocityZ := clampV (sphere2.velocityZ - a2 * config.deltaTime) })
  else (sphere1, sphere2)

/-- Apply `gravPair` to the spheres stored at indices `ij.1 < ij.2` of the
list, writing both updated spheres back (the vector elements are taken by
reference in the C++ loop body). -/
def applyPairAt (config : PhysicsConfig) (l : List SpherePhysics)
    (ij : ℕ × ℕ) : List SpherePhysics :=
  match l[ij.1]?, l[ij.2]? with
  | some s1, some s2 =>
      let p := gravPair config s1 s2
      (l.set ij.1 p.1).set ij.2 p.2
  | _, _ => l

/-- The index pairs visited by the double loop
`for i = 0 .. n-1, for j = i+1 .. n-1` of
`Sphere::calculateGravitationalForces` (Sphere.cpp lines 168-169),
in execution order. -/
def pairList (n : ℕ) : List (ℕ × ℕ) :=
  (List.range n).flatMap fun i =>
    (List.range' (i + 1) (n - (i + 1))).map fun j => (i, j)

/-- The function `Sphere::calculateGravitationalForces` (Sphere.cpp lines 167-224). -/
def calculateGravitationalForces (spheres : List SpherePhysics)
    (config : PhysicsConfig) : List SpherePhysics :=
  (pairList spheres.length).foldl (applyPairAt config) spheres

/-- Lines 108-111 of Sphere.cpp: Earth gravity is applied only when
gravitational attraction is disabled. -/
def applyUniformGravity (config : PhysicsConfig) (s : SpherePhysics) :
    SpherePhysics :=
  if config.enableGravity then s
  else { s with velocityY := s.velocityY - config.gravity * config.deltaTime }

/-- Lines 113-116 of Sphere.cpp: position update from the 3D velocity. -/
def integratePosition (config : PhysicsConfig) (s : SpherePhysics) :
    SpherePhysics :=
  { s with
      x := s.x + s.velocityX * config.deltaTime
      y := s.y + s.velocityY * config.deltaTime
      z := s.z + s.velocityZ * config.deltaTime }

/-- Lines 118-131 of Sphere.cpp: bottom-boundary check (bounce or wrap). -/
def resolveBottom (config : PhysicsConfig) (s : SpherePhysics) :
    SpherePhysics :=
  if s.y - s.radius < config.bottomBoundary then
    if config.enableBounce then
      { s with
          y := config.bottomBoundary + s.radius
          velocityY := -s.velocityY * config.bounceDamping }
    else
      { s with
          y := config.topBoundary + s.radius
          velocityY := 0 }
  else s

/-- Lines 133-137 of Sphere.cpp: top-boundary check. -/
def resolveTop (config : PhysicsConfig) (s : SpherePhysics) : SpherePhysics :=
  if s.y + s.radius > config.topBoundary then
    { s with
        y := config.topBoundary - s.radius
        velocityY := 0 }
  else s

/-- Lines 146-149 of Sphere.cpp: left wall at `x = -3`. -/
def resolveLeft (config : PhysicsConfig) (s : SpherePhysics) : SpherePhysics :=
  if s.x - s.radius < -3 then
    { s with
        x := -3 + s.radius
        velocityX := -s.velocityX * config.bounceDamping }
  else s

/-- Lines 150-153 of Sphere.cpp: right wall at `x = 3`. -/
def resolveRight (config : PhysicsConfig) (s : SpherePhysics) : SpherePhysics :=
  if s.x + s.radius > 3 then
    { s with
        x := 3 - s.radius
        velocityX := -s.velocityX * config.bounceDamping }
  else s

/-- Lines 156-159 of Sphere.cpp: front wall at `z = -3`. -/
def resolveFront (config : PhysicsConfig) (s : SpherePhysics) : SpherePhysics :=
  if s.z - s.radius < -3 then
    { s with
        z := -3 + s.radius
        velocityZ := -s.velocityZ * config.bounceDamping }
  else s

/-- Lines 160-163 of Sphere.cpp: back wall at `z = 3`. -/
def resolveBack (config : PhysicsConfig) (s : SpherePhysics) : SpherePhysics :=
  if s.z + s.radius > 3 then
    { s with
        z := 3 - s.radius
        velocityZ := -s.velocityZ * config.bounceDamping }
  else s

/-- The body of the `for (auto& sphere : spheres)` loop of
`Sphere::updatePhysics` (Sphere.cpp lines 107-164): optional uniform
gravity, position integration, then the six boundary checks in textual
order. -/
def stepBody (config : PhysicsConfig) (s : SpherePhysics) : SpherePhysics :=
  resolveBack config (resolveFront config (resolveRight config
    (resolveLeft config (resolveTop config (resolveBottom config
      (integratePosition config (applyUniformGravity config s)))))))

/-- The function `Sphere::updatePhysics` (Sphere.cpp lines 101-165): pairwise
gravitational forces when enabled, then the per-sphere loop. -/
def updatePhysics (spheres : List SpherePhysics) (config : PhysicsConfig) :
    List SpherePhysics :=
  let spheres' :=
    if config.enableGravity then calculateGravitationalForces spheres config
    else spheres
  spheres'.map (stepBody config)

/-- Iterated physics: `n` successive calls on the same vector,
as the render loop performs once per frame. -/
def stepN (config : PhysicsConfig) : ℕ → List SpherePhysics →
    List SpherePhysics
  | 0, l => l
  | n + 1, l => stepN config n (updatePhysics l config)

/-- The fields of a sphere that the force pass may never change:
position, radius, mass and color. -/
def gravFixed (s : SpherePhysics) : ℝ × ℝ × ℝ × ℝ × ℝ × (ℝ × ℝ × ℝ) :=
  (s.x, s.y, s.z, s.radius, s.mass, s.color)

/-- The fields of a sphere that a whole physics step may never change:
radius, mass and color. -/
def stepFixed (s : SpherePhysics) : ℝ × ℝ × (ℝ × ℝ × ℝ) :=
  (s.radius, s.mass, s.color)

/-- Two spheres share the same center. -/
def posEq (a b : SpherePhysics) : Prop :=
  a.x = b.x ∧ a.y = b.y ∧ a.z = b.z

/-- All three velocity components lie in `[-10, 10]`. -/
def velInRange (s : SpherePhysics) : Prop :=
  |s.velocityX| ≤ 10 ∧ |s.velocityY| ≤ 10 ∧ |s.velocityZ| ≤ 10

/-- A pair of indices holds two spheres with distinct centers. -/
def pairOK (l : List SpherePhysics) (p : ℕ × ℕ) : Prop :=
  ∃ s1 s2, l[p.1]? = some s1 ∧ l[p.2]? = some s2 ∧ ¬ posEq s1 s2

/- Evaluation of the wrap-then-reclamp scenario behind the spec's
"wrap determinism" test case. -/

/-- The body of the wrap test: at rest horizontally, `y = -2.1`,
`velocityY = -1`, `radius = 0.4`. -/
def c2Body : SpherePhysics :=
  { x := 0, y := -2.1, z := 0
    velocityX := 0, velocityY := -1, velocityZ := 0
    radius := 0.4, mass := 1, color := (1, 1, 1) }

/-- The default configuration with bounce toggled off (wrap mode). -/
def c2Config : PhysicsConfig := { defaultConfig with enableBounce := false }

/-- The bounce-damping test configuration: defaults with
`bounceDamping = 0.8`. -/
def c6Config : PhysicsConfig := { defaultConfig with bounceDamping := 0.8 }

/-- The bounce-damping test body: about to hit the bottom boundary with
`velocityY = -3`. -/
def c6Body : SpherePhysics :=
  { x := 0, y := -1.65, z := 0
    velocityX := 0, velocityY := -3, velocityZ := 0
    radius := 0.4, mass := 1, color := (1, 1, 1) }

/- Resting bodies at the bottom boundary. -/

/-- The default configuration with gravitational attraction toggled off
(uniform gravity active). -/
def c8Config : PhysicsConfig := { defaultConfig with enableGravity := false }

/-- A body resting exactly at `bottomBoundary + radius` with zero
velocity. -/
def c8Body : SpherePhysics :=
  { x := 0, y := -1.6, z := 0
    velocityX := 0, velocityY := 0, velocityZ := 0
    radius := 0.4, mass := 1, color := (1, 1, 1) }

/-- A motionless body at the arena center, used by witnesses. -/
def restBody : SpherePhysics :=
  { x := 0, y := 0, z := 0
    velocityX := 0, velocityY := 0, velocityZ := 0
    radius := 0.4, mass := 1, color := (1, 1, 1) }

/-- The integrator of spec section 4.2, written from the spec's words:
when `enablePairwiseGravity` is false, apply
`velocity.y -= uniformGravity * deltaTime`; then, regardless of gravity
mode, `position += velocity * deltaTime` using the updated velocity
(semi-implicit Euler). -/
def integratorSpec (config : PhysicsConfig) (s : SpherePhysics) :
    SpherePhysics :=
  let vy := if config.enableGravity = false
    then s.velocityY - config.gravity * config.deltaTime
    else s.velocityY
  { s with
      velocityY := vy
      x := s.x + s.velocityX * config.deltaTime
      y := s.y + vy * config.deltaTime
      z := s.z + s.velocityZ * config.deltaTime }

/-- A body coincident with `restBody`'s center but moving and heavier. -/
def coincidentBody : SpherePhysics :=
  { x := 0, y := 0, z := 0
    velocityX := 2, velocityY := 0, velocityZ := -1
    radius := 0.2, mass := 5, color := (0, 1, 0) }

/- An unequal-mass two-body scenario at unit distance, with unit force
constants so the interaction is exactly computable. -/

/-- Bounce off, gravity on, `G = 1`, `distanceScale = 1`,
`deltaTime = 1/10`. -/
def c1Config : PhysicsConfig :=
  { enableBounce := false
    bounceDamping := 1
    enableGravity := true
    gravity := 9.8
    deltaTime := 1 / 10
    bottomBoundary := -2
    topBoundary := 2
    distanceScale := 1
    gravitationalConstant := 1 }

/-- Light body at the origin, mass 1. -/
def c1s1 : SpherePhysics :=
  { x := 0, y := 0, z := 0
    velocityX := 0, velocityY := 0, velocityZ := 0
    radius := 0.1, mass := 1, color := (1, 0, 0) }

/-- Heavy body at `x = 1`, mass 3. -/
def c1s2 : SpherePhysics :=
  { x := 1, y := 0, z := 0
    velocityX := 0, velocityY := 0, velocityZ := 0
    radius := 0.1, mass := 3, color := (0, 0, 1) }

/-- The light body after the force pass: `F = 1*1*3/1 = 3`,
`acc1 = F/1 = 3`, so `velocityX = 3 * (1/10) = 0.3`. -/
def c1g1 : SpherePhysics :=
  { x := 0, y := 0, z := 0
    velocityX := 3 / 10, velocityY := 0, velocityZ := 0
    radius := 0.1, mass := 1, color := (1, 0, 0) }

/-- The heavy body after the force pass: it receives the exact negation
of the light body's velocity delta, `velocityX = -0.3` (not `-0.1`). -/
def c1g2 : SpherePhysics :=
  { x := 1, y := 0, z := 0
    velocityX := -(3 / 10), velocityY := 0, velocityZ := 0
    radius := 0.1, mass := 3, color := (0, 0, 1) }

/-- The light body after the whole step. -/
def c1r1 : SpherePhysics :=
  { x := 3 / 100, y := 0, z := 0
    velocityX := 3 / 10, velocityY := 0, velocityZ := 0
    radius := 0.1, mass := 1, color := (1, 0, 0) }

/-- The heavy body after the whole step. -/
def c1r2 : SpherePhysics :=
  { x := 97 / 100, y := 0, z := 0
    velocityX := -(3 / 10), velocityY := 0, velocityZ := 0
    radius := 0.1, mass := 3, color := (0, 0, 1) }

/-- The X component of total momentum, `sum of mass * velocityX`. -/
def momentumX (l : List SpherePhysics) : ℝ :=
  (l.map fun s => s.mass * s.velocityX).sum

/-- A body moving far faster than the clamp bound. -/
def fastBody : SpherePhysics :=
  { x := 0, y := 0, z := 0
    velocityX := 50, velocityY := 0, velocityZ := 0
    radius := 0.4, mass := 1, color := (1, 1, 1) }

/- The force pass against the claim's own wording. -/

/-- The ordering contract written from the claim's words: every
unordered pair `(i, j)` with `i < j`, in ascending `i` then ascending
`j` order. -/
def specPairs (n : ℕ) : List (ℕ × ℕ) :=
  (List.range n).flatMap fun i =>
    ((List.range n).filter fun j => i < j).map fun j => (i, j)

/-- The velocity delta written from the claim's words:
`(F / mass_i) * unit(d) * deltaTime` where `d = position_j - position_i`
and `F = gravitationalConstant * mass_i * mass_j /
(distance * distanceScale)^2`. -/
def specDelta (config : PhysicsConfig) (s1 s2 : SpherePhysics) :
    ℝ × ℝ × ℝ :=
  let dx := s2.x - s1.x
  let dy := s2.y - s1.y
  let dz := s2.z - s1.z
  let distance := Real.sqrt (dx * dx + dy * dy + dz * dz)
  let F := config.gravitationalConstant * s1.mass * s2.mass /
    (distance * config.distanceScale) ^ 2
  (F / s1.mass * (dx / distance) * config.deltaTime,
   F / s1.mass * (dy / distance) * config.deltaTime,
   F / s1.mass * (dz / distance) * config.deltaTime)

/-- The per-pair update written from the claim's words: for a pair at
nonzero distance, add `specDelta` to body `i`'s velocity and the exact
negation of that same delta to body `j`'s velocity (each component then
clamped to `[-10, 10]`); a zero-distance pair leaves the list
untouched. -/
def specPairUpdate (config : PhysicsConfig) (l : List SpherePhysics)
    (p : ℕ × ℕ) : List SpherePhysics :=
  match l[p.1]?, l[p.2]? with
  | some s1, some s2 =>
      if Real.sqrt ((s2.x - s1.x) * (s2.x - s1.x) +
          (s2.y - s1.y) * (s2.y - s1.y) +
          (s2.z - s1.z) * (s2.z - s1.z)) ≠ 0 then
        let d := specDelta config s1 s2
        (l.set p.1
          { s1 with
              velocityX := clampV (s1.velocityX + d.1)
              velocityY := clampV (s1.velocityY + d.2.1)
              velocityZ := clampV (s1.velocityZ + d.2.2) }).set p.2
          { s2 with
              velocityX := clampV (s2.velocityX + -d.1)
              velocityY := clampV (s2.velocityY + -d.2.1)
              velocityZ := clampV (s2.velocityZ + -d.2.2) }
      else l
  | _, _ => l

lemma gravPair_fst_gravFixed (config : PhysicsConfig)
    (a b : SpherePhysics) : gravFixed (gravPair config a b).1 = gravFixed a := by
  simp only [gravPair]
  split <;> rfl

lemma gravPair_snd_gravFixed (config : PhysicsConfig)
    (a b : SpherePhysics) : gravFixed (gravPair config a b).2 = gravFixed b := by
  simp only [gravPair]
  split <;> rfl

lemma applyPairAt_length (config : PhysicsConfig) (l : List SpherePhysics)
    (p : ℕ × ℕ) : (applyPairAt config l p).length = l.length := by
  unfold applyPairAt
  rcases h1 : l[p.1]? with _ | s1 <;> rcases h2 : l[p.2]? with _ | s2 <;> simp

lemma applyPairAt_gravFixed (config : PhysicsConfig) (l : List SpherePhysics)
    (p : ℕ × ℕ) (k : ℕ) :
    ((applyPairAt config l p)[k]?).map gravFixed = (l[k]?).map gravFixed := by
  unfold applyPairAt
  rcases h1 : l[p.1]? with _ | s1 <;> rcases h2 : l[p.2]? with _ | s2 <;>
    try rfl
  have hp1 : p.1 < l.length := by
    by_contra h
    simp [List.getElem?_eq_none (Nat.le_of_not_lt h)] at h1
  have hp2 : p.2 < l.length := by
    by_contra h
    simp [List.getElem?_eq_none (Nat.le_of_not_lt h)] at h2
  by_cases hk2 : k = p.2
  · subst hk2
    rw [List.getElem?_set_self (by simpa using hp2)]
    rw [h2, Option.map_some', Option.map_some', gravPair_snd_gravFixed]
  · rw [List.getElem?_set_ne (Ne.symm hk2)]
    by_cases hk1 : k = p.1
    · subst hk1
      rw [List.getElem?_set_self hp1, h1, Option.map_some', Option.map_some',
        gravPair_fst_gravFixed]
    · rw [List.getElem?_set_ne (Ne.symm hk1)]

lemma applyPairAt_untouched (config : PhysicsConfig) (l : List SpherePhysics)
    (p : ℕ × ℕ) (k : ℕ) (h1 : k ≠ p.1) (h2 : k ≠ p.2) :
    (applyPairAt config l p)[k]? = l[k]? := by
  unfold applyPairAt
  rcases hv1 : l[p.1]? with _ | s1 <;> rcases hv2 : l[p.2]? with _ | s2 <;>
    try rfl
  rw [List.getElem?_set_ne (Ne.symm h2), List.getElem?_set_ne (Ne.symm h1)]

lemma gravFold_length (config : PhysicsConfig) (ps : List (ℕ × ℕ)) :
    ∀ l : List SpherePhysics,
      (ps.foldl (applyPairAt config) l).length = l.length := by
  induction ps with
  | nil => intro l; rfl
  | cons p rest ih =>
      intro l
      rw [List.foldl_cons, ih, applyPairAt_length]

lemma gravFold_gravFixed (config : PhysicsConfig) (ps : List (ℕ × ℕ)) :
    ∀ (l : List SpherePhysics) (k : ℕ),
      ((ps.foldl (applyPairAt config) l)[k]?).map gravFixed =
        (l[k]?).map gravFixed := by
  induction ps with
  | nil => intro l k; rfl
  | cons p rest ih =>
      intro l k
      rw [List.foldl_cons, ih, applyPairAt_gravFixed]

lemma gravFold_untouched (config : PhysicsConfig) (ps : List (ℕ × ℕ)) :
    ∀ (l : List SpherePhysics) (k : ℕ),
      (∀ q ∈ ps, k ≠ q.1 ∧ k ≠ q.2) →
      (ps.foldl (applyPairAt config) l)[k]? = l[k]? := by
  induction ps with
  | nil => intro l k _; rfl
  | cons p rest ih =>
      intro l k h
      rw [List.foldl_cons, ih _ _ (fun q hq => h q (List.mem_cons_of_mem _ hq)),
        applyPairAt_untouched _ _ _ _ (h p (List.mem_cons_self _ _)).1
          (h p (List.mem_cons_self _ _)).2]

lemma calculateGravitationalForces_length (l : List SpherePhysics)
    (config : PhysicsConfig) :
    (calculateGravitationalForces l config).length = l.length :=
  gravFold_length config _ l

lemma calculateGravitationalForces_gravFixed (l : List SpherePhysics)
    (config : PhysicsConfig) (k : ℕ) :
    ((calculateGravitationalForces l config)[k]?).map gravFixed =
      (l[k]?).map gravFixed :=
  gravFold_gravFixed config _ l k

lemma mem_pairList {n : ℕ} {p : ℕ × ℕ} :
    p ∈ pairList n ↔ p.1 < p.2 ∧ p.2 < n := by
  unfold pairList
  simp only [List.mem_flatMap, List.mem_map, List.mem_range, List.mem_range'_1]
  constructor
  · rintro ⟨i, hi, j, hj, rfl⟩
    simp only
    omega
  · rintro ⟨h1, h2⟩
    exact ⟨p.1, by omega, p.2, by omega, rfl⟩

lemma abs_clampV_le (v : ℝ) : |clampV v| ≤ 10 := by
  rw [abs_le]
  exact ⟨le_max_left _ _, max_le (by norm_num) (min_le_left _ _)⟩

lemma gravFixed_x {a b : SpherePhysics} (h : gravFixed a = gravFixed b) :
    a.x = b.x := congrArg (fun t => t.1) h

lemma gravFixed_y {a b : SpherePhysics} (h : gravFixed a = gravFixed b) :
    a.y = b.y := congrArg (fun t => t.2.1) h

lemma gravFixed_z {a b : SpherePhysics} (h : gravFixed a = gravFixed b) :
    a.z = b.z := congrArg (fun t => t.2.2.1) h

lemma gravFixed_radius {a b : SpherePhysics} (h : gravFixed a = gravFixed b) :
    a.radius = b.radius := congrArg (fun t => t.2.2.2.1) h

lemma stepFixed_of_gravFixed {a b : SpherePhysics}
    (h : gravFixed a = gravFixed b) : stepFixed a = stepFixed b := by
  have h1 := congrArg (fun t => t.2.2.2.1) h
  have h2 := congrArg (fun t => t.2.2.2.2.1) h
  have h3 := congrArg (fun t => t.2.2.2.2.2) h
  simp only [gravFixed] at h1 h2 h3
  simp only [stepFixed, h1, h2, h3]

lemma posEq_congr {a a' b b' : SpherePhysics}
    (ha : gravFixed a = gravFixed a') (hb : gravFixed b = gravFixed b') :
    posEq a b ↔ posEq a' b' := by
  unfold posEq
  rw [gravFixed_x ha, gravFixed_y ha, gravFixed_z ha,
    gravFixed_x hb, gravFixed_y hb, gravFixed_z hb]

lemma gravPair_velInRange (config : PhysicsConfig) (a b : SpherePhysics)
    (h : ¬ posEq a b) :
    velInRange (gravPair config a b).1 ∧ velInRange (gravPair config a b).2 := by
  have hne : b.x - a.x ≠ 0 ∨ b.y - a.y ≠ 0 ∨ b.z - a.z ≠ 0 := by
    by_contra hc
    push_neg at hc
    exact h ⟨by linarith [hc.1], by linarith [hc.2.1], by linarith [hc.2.2]⟩
  have hd : 0 < Real.sqrt ((b.x - a.x) * (b.x - a.x) +
      (b.y - a.y) * (b.y - a.y) + (b.z - a.z) * (b.z - a.z)) := by
    apply Real.sqrt_pos.mpr
    rcases hne with hx | hy | hz
    · have := mul_self_pos.mpr hx
      nlinarith [mul_self_nonneg (b.y - a.y), mul_self_nonneg (b.z - a.z)]
    · have := mul_self_pos.mpr hy
      nlinarith [mul_self_nonneg (b.x - a.x), mul_self_nonneg (b.z - a.z)]
    · have := mul_self_pos.mpr hz
      nlinarith [mul_self_nonneg (b.x - a.x), mul_self_nonneg (b.y - a.y)]
  simp only [gravPair]
  rw [if_pos hd]
  exact ⟨⟨abs_clampV_le _, abs_clampV_le _, abs_clampV_le _⟩,
    ⟨abs_clampV_le _, abs_clampV_le _, abs_clampV_le _⟩⟩

lemma applyPairAt_clamped (config : PhysicsConfig) (l : List SpherePhysics)
    (p : ℕ × ℕ) (hij : p.1 ≠ p.2) (s1 s2 : SpherePhysics)
    (h1 : l[p.1]? = some s1) (h2 : l[p.2]? = some s2) :
    (applyPairAt config l p)[p.1]? = some (gravPair config s1 s2).1 ∧
    (applyPairAt config l p)[p.2]? = some (gravPair config s1 s2).2 := by
  have hp1 : p.1 < l.length := by
    by_contra hcon
    simp [List.getElem?_eq_none (Nat.le_of_not_lt hcon)] at h1
  have hp2 : p.2 < l.length := by
    by_contra hcon
    simp [List.getElem?_eq_none (Nat.le_of_not_lt hcon)] at h2
  unfold applyPairAt
  rw [h1, h2]
  constructor
  · rw [List.getElem?_set_ne (Ne.symm hij), List.getElem?_set_self hp1]
  · rw [List.getElem?_set_self (by simpa using hp2)]

lemma gravFold_clampedAt (config : PhysicsConfig) (ps : List (ℕ × ℕ)) :
    ∀ (l : List SpherePhysics) (k : ℕ),
      (∀ q ∈ ps, q.1 ≠ q.2 ∧ pairOK l q) →
      (∃ q ∈ ps, k = q.1 ∨ k = q.2) →
      ∀ s, (ps.foldl (applyPairAt config) l)[k]? = some s → velInRange s := by
  induction ps with
  | nil =>
      rintro l k _ ⟨q, hq, _⟩ _ _
      exact absurd hq (List.not_mem_nil q)
  | cons p rest ih =>
      rintro l k hOK hmem s hs
      rw [List.foldl_cons] at hs
      have hOK' : ∀ q ∈ rest, q.1 ≠ q.2 ∧ pairOK (applyPairAt config l p) q := by
        intro q hq
        obtain ⟨hne, t1, t2, e1, e2, hp⟩ := hOK q (List.mem_cons_of_mem _ hq)
        refine ⟨hne, ?_⟩
        have f1 := applyPairAt_gravFixed config l p q.1
        have f2 := applyPairAt_gravFixed config l p q.2
        rw [e1] at f1
        rw [e2] at f2
        simp only [Option.map_some'] at f1 f2
        obtain ⟨u1, hu1, hg1⟩ := Option.map_eq_some'.mp f1
        obtain ⟨u2, hu2, hg2⟩ := Option.map_eq_some'.mp f2
        exact ⟨u1, u2, hu1, hu2, fun hpe => hp ((posEq_congr hg1 hg2).mp hpe)⟩
      by_cases hrest : ∃ q ∈ rest, k = q.1 ∨ k = q.2
      · exact ih (applyPairAt config l p) k hOK' hrest s hs
      · have hkp : k = p.1 ∨ k = p.2 := by
          obtain ⟨q, hq, hkq⟩ := hmem
          rcases List.mem_cons.mp hq with rfl | hq'
          · exact hkq
          · exact absurd ⟨q, hq', hkq⟩ hrest
        have huntouched : ∀ q ∈ rest, k ≠ q.1 ∧ k ≠ q.2 := by
          intro q hq
          exact ⟨fun hh => hrest ⟨q, hq, Or.inl hh⟩,
            fun hh => hrest ⟨q, hq, Or.inr hh⟩⟩
        rw [gravFold_untouched config rest _ k huntouched] at hs
        obtain ⟨hne, t1, t2, e1, e2, hnep⟩ := hOK p (List.mem_cons_self _ _)
        obtain ⟨c1, c2⟩ := applyPairAt_clamped config l p hne t1 t2 e1 e2
        rcases hkp with rfl | rfl
        · rw [c1] at hs
          cases hs
          exact (gravPair_velInRange config t1 t2 hnep).1
        · rw [c2] at hs
          cases hs
          exact (gravPair_velInRange config t1 t2 hnep).2

lemma applyUniformGravity_stepFixed (config : PhysicsConfig)
    (s : SpherePhysics) :
    stepFixed (applyUniformGravity config s) = stepFixed s := by
  unfold applyUniformGravity
  split <;> rfl

lemma integratePosition_stepFixed (config : PhysicsConfig)
    (s : SpherePhysics) :
    stepFixed (integratePosition config s) = stepFixed s := rfl

lemma resolveBottom_stepFixed (config : PhysicsConfig) (s : SpherePhysics) :
    stepFixed (resolveBottom config s) = stepFixed s := by
  unfold resolveBottom
  split_ifs <;> rfl

lemma resolveTop_stepFixed (config : PhysicsConfig) (s : SpherePhysics) :
    stepFixed (resolveTop config s) = stepFixed s := by
  unfold resolveTop
  split_ifs <;> rfl

lemma resolveLeft_stepFixed (config : PhysicsConfig) (s : SpherePhysics) :
    stepFixed (resolveLeft config s) = stepFixed s := by
  unfold resolveLeft
  split_ifs <;> rfl

lemma resolveRight_stepFixed (config : PhysicsConfig) (s : SpherePhysics) :
    stepFixed (resolveRight config s) = stepFixed s := by
  unfold resolveRight
  split_ifs <;> rfl

lemma resolveFront_stepFixed (config : PhysicsConfig) (s : SpherePhysics) :
    stepFixed (resolveFront config s) = stepFixed s := by
  unfold resolveFront
  split_ifs <;> rfl

lemma resolveBack_stepFixed (config : PhysicsConfig) (s : SpherePhysics) :
    stepFixed (resolveBack config s) = stepFixed s := by
  unfold resolveBack
  split_ifs <;> rfl

lemma stepBody_stepFixed (config : PhysicsConfig) (s : SpherePhysics) :
    stepFixed (stepBody config s) = stepFixed s := by
  unfold stepBody
  rw [resolveBack_stepFixed, resolveFront_stepFixed, resolveRight_stepFixed,
    resolveLeft_stepFixed, resolveTop_stepFixed, resolveBottom_stepFixed,
    integratePosition_stepFixed, applyUniformGravity_stepFixed]

lemma stepFixed_radius {a b : SpherePhysics} (h : stepFixed a = stepFixed b) :
    a.radius = b.radius := congrArg (fun t => t.1) h

lemma stepFixed_mass {a b : SpherePhysics} (h : stepFixed a = stepFixed b) :
    a.mass = b.mass := congrArg (fun t => t.2.1) h

lemma stepFixed_color {a b : SpherePhysics} (h : stepFixed a = stepFixed b) :
    a.color = b.color := congrArg (fun t => t.2.2) h

/- The horizontal wall checks never touch the vertical state. -/

lemma resolveLeft_y (config : PhysicsConfig) (s : SpherePhysics) :
    (resolveLeft config s).y = s.y := by
  unfold resolveLeft
  split_ifs <;> rfl

lemma resolveLeft_velocityY (config : PhysicsConfig) (s : SpherePhysics) :
    (resolveLeft config s).velocityY = s.velocityY := by
  unfold resolveLeft
  split_ifs <;> rfl

lemma resolveRight_y (config : PhysicsConfig) (s : SpherePhysics) :
    (resolveRight config s).y = s.y := by
  unfold resolveRight
  split_ifs <;> rfl

lemma resolveRight_velocityY (config : PhysicsConfig) (s : SpherePhysics) :
    (resolveRight config s).velocityY = s.velocityY := by
  unfold resolveRight
  split_ifs <;> rfl

lemma resolveFront_y (config : PhysicsConfig) (s : SpherePhysics) :
    (resolveFront config s).y = s.y := by
  unfold resolveFront
  split_ifs <;> rfl

lemma resolveFront_velocityY (config : PhysicsConfig) (s : SpherePhysics) :
    (resolveFront config s).velocityY = s.velocityY := by
  unfold resolveFront
  split_ifs <;> rfl

lemma resolveBack_y (config : PhysicsConfig) (s : SpherePhysics) :
    (resolveBack config s).y = s.y := by
  unfold resolveBack
  split_ifs <;> rfl

lemma resolveBack_velocityY (config : PhysicsConfig) (s : SpherePhysics) :
    (resolveBack config s).velocityY = s.velocityY := by
  unfold resolveBack
  split_ifs <;> rfl

lemma resolveFront_x (config : PhysicsConfig) (s : SpherePhysics) :
    (resolveFront config s).x = s.x := by
  unfold resolveFront
  split_ifs <;> rfl

lemma resolveBack_x (config : PhysicsConfig) (s : SpherePhysics) :
    (resolveBack config s).x = s.x := by
  unfold resolveBack
  split_ifs <;> rfl

/- Boundary handling keeps already-clamped velocities in range when the
damping factor lies in `[0, 1]`. -/

lemma abs_neg_mul_le {v d : ℝ} (hv : |v| ≤ 10) (hd0 : 0 ≤ d) (hd1 : d ≤ 1) :
    |(-v) * d| ≤ 10 := by
  rw [abs_mul, abs_neg, abs_of_nonneg hd0]
  nlinarith [abs_nonneg v]

lemma resolveBottom_velInRange (config : PhysicsConfig) (s : SpherePhysics)
    (hd0 : 0 ≤ config.bounceDamping) (hd1 : config.bounceDamping ≤ 1)
    (h : velInRange s) : velInRange (resolveBottom config s) := by
  obtain ⟨hx, hy, hz⟩ := h
  unfold resolveBottom
  split_ifs
  · exact ⟨hx, abs_neg_mul_le hy hd0 hd1, hz⟩
  · exact ⟨hx, by norm_num, hz⟩
  · exact ⟨hx, hy, hz⟩

lemma resolveTop_velInRange (config : PhysicsConfig) (s : SpherePhysics)
    (h : velInRange s) : velInRange (resolveTop config s) := by
  obtain ⟨hx, hy, hz⟩ := h
  unfold resolveTop
  split_ifs
  · exact ⟨hx, by norm_num, hz⟩
  · exact ⟨hx, hy, hz⟩

lemma resolveLeft_velInRange (config : PhysicsConfig) (s : SpherePhysics)
    (hd0 : 0 ≤ config.bounceDamping) (hd1 : config.bounceDamping ≤ 1)
    (h : velInRange s) : velInRange (resolveLeft config s) := by
  obtain ⟨hx, hy, hz⟩ := h
  unfold resolveLeft
  split_ifs
  · exact ⟨abs_neg_mul_le hx hd0 hd1, hy, hz⟩
  · exact ⟨hx, hy, hz⟩

lemma resolveRight_velInRange (config : PhysicsConfig) (s : SpherePhysics)
    (hd0 : 0 ≤ config.bounceDamping) (hd1 : config.bounceDamping ≤ 1)
    (h : velInRange s) : velInRange (resolveRight config s) := by
  obtain ⟨hx, hy, hz⟩ := h
  unfold resolveRight
  split_ifs
  · exact ⟨abs_neg_mul_le hx hd0 hd1, hy, hz⟩
  · exact ⟨hx, hy, hz⟩

lemma resolveFront_velInRange (config : PhysicsConfig) (s : SpherePhysics)
    (hd0 : 0 ≤ config.bounceDamping) (hd1 : config.bounceDamping ≤ 1)
    (h : velInRange s) : velInRange (resolveFront config s) := by
  obtain ⟨hx, hy, hz⟩ := h
  unfold resolveFront
  split_ifs
  · exact ⟨hx, hy, abs_neg_mul_le hz hd0 hd1⟩
  · exact ⟨hx, hy, hz⟩

lemma resolveBack_velInRange (config : PhysicsConfig) (s : SpherePhysics)
    (hd0 : 0 ≤ config.bounceDamping) (hd1 : config.bounceDamping ≤ 1)
    (h : velInRange s) : velInRange (resolveBack config s) := by
  obtain ⟨hx, hy, hz⟩ := h
  unfold resolveBack
  split_ifs
  · exact ⟨hx, hy, abs_neg_mul_le hz hd0 hd1⟩
  · exact ⟨hx, hy, hz⟩

lemma applyUniformGravity_of_gravity (config : PhysicsConfig)
    (s : SpherePhysics) (hg : config.enableGravity = true) :
    applyUniformGravity config s = s := by
  unfold applyUniformGravity
  rw [if_pos hg]

lemma integratePosition_velInRange (config : PhysicsConfig)
    (s : SpherePhysics) (h : velInRange s) :
    velInRange (integratePosition config s) := h

lemma stepBody_velInRange (config : PhysicsConfig) (s : SpherePhysics)
    (hg : config.enableGravity = true)
    (hd0 : 0 ≤ config.bounceDamping) (hd1 : config.bounceDamping ≤ 1)
    (h : velInRange s) : velInRange (stepBody config s) := by
  unfold stepBody
  rw [applyUniformGravity_of_gravity config s hg]
  exact resolveBack_velInRange _ _ hd0 hd1
    (resolveFront_velInRange _ _ hd0 hd1
      (resolveRight_velInRange _ _ hd0 hd1
        (resolveLeft_velInRange _ _ hd0 hd1
          (resolveTop_velInRange _ _
            (resolveBottom_velInRange _ _ hd0 hd1
              (integratePosition_velInRange _ _ h))))))

/- Horizontal containment: the X checks leave the center inside
`[-3 + radius, 3 - radius]` whenever the radius is at most 3, and the Z
checks do the same for Z. -/

lemma resolveLeft_x_lower (config : PhysicsConfig) (s : SpherePhysics) :
    -3 + s.radius ≤ (resolveLeft config s).x := by
  unfold resolveLeft
  split_ifs with h
  · exact le_rfl
  · linarith

lemma resolveLeft_radius (config : PhysicsConfig) (s : SpherePhysics) :
    (resolveLeft config s).radius = s.radius :=
  stepFixed_radius (resolveLeft_stepFixed config s)

lemma resolveRight_radius (config : PhysicsConfig) (s : SpherePhysics) :
    (resolveRight config s).radius = s.radius :=
  stepFixed_radius (resolveRight_stepFixed config s)

lemma resolveFront_radius (config : PhysicsConfig) (s : SpherePhysics) :
    (resolveFront config s).radius = s.radius :=
  stepFixed_radius (resolveFront_stepFixed config s)

lemma resolveBack_radius (config : PhysicsConfig) (s : SpherePhysics) :
    (resolveBack config s).radius = s.radius :=
  stepFixed_radius (resolveBack_stepFixed config s)

lemma resolveRight_x_bounds (config : PhysicsConfig) (s : SpherePhysics)
    (hr : s.radius ≤ 3) (hlow : -3 + s.radius ≤ s.x) :
    -3 + s.radius ≤ (resolveRight config s).x ∧
      (resolveRight config s).x ≤ 3 - s.radius := by
  unfold resolveRight
  split_ifs with h
  · dsimp only
    constructor <;> linarith
  · exact ⟨hlow, by linarith⟩

lemma resolveFront_z_lower (config : PhysicsConfig) (s : SpherePhysics) :
    -3 + s.radius ≤ (resolveFront config s).z := by
  unfold resolveFront
  split_ifs with h
  · exact le_rfl
  · linarith

lemma resolveBack_z_bounds (config : PhysicsConfig) (s : SpherePhysics)
    (hr : s.radius ≤ 3) (hlow : -3 + s.radius ≤ s.z) :
    -3 + s.radius ≤ (resolveBack config s).z ∧
      (resolveBack config s).z ≤ 3 - s.radius := by
  unfold resolveBack
  split_ifs with h
  · dsimp only
    constructor <;> linarith
  · exact ⟨hlow, by linarith⟩

lemma stepBody_xz_bounds (config : PhysicsConfig) (s : SpherePhysics)
    (hr : s.radius ≤ 3) :
    (-3 + (stepBody config s).radius ≤ (stepBody config s).x ∧
      (stepBody config s).x ≤ 3 - (stepBody config s).radius) ∧
    (-3 + (stepBody config s).radius ≤ (stepBody config s).z ∧
      (stepBody config s).z ≤ 3 - (stepBody config s).radius) := by
  have hrad : (stepBody config s).radius = s.radius :=
    stepFixed_radius (stepBody_stepFixed config s)
  unfold stepBody
  set u := resolveTop config (resolveBottom config
    (integratePosition config (applyUniformGravity config s))) with hu
  have hur : u.radius = s.radius := by
    have h1 := resolveTop_stepFixed config (resolveBottom config
      (integratePosition config (applyUniformGravity config s)))
    have h2 := resolveBottom_stepFixed config
      (integratePosition config (applyUniformGravity config s))
    have h3 := integratePosition_stepFixed config
      (applyUniformGravity config s)
    have h4 := applyUniformGravity_stepFixed config s
    rw [hu]
    exact stepFixed_radius (by rw [h1, h2, h3, h4])
  have hxl : -3 + s.radius ≤ (resolveLeft config u).x := by
    rw [← hur]
    exact hur ▸ (hur ▸ resolveLeft_x_lower config u)
  have hx2 := resolveRight_x_bounds config (resolveLeft config u)
    (by rw [resolveLeft_radius, hur]; exact hr)
    (by rw [resolveLeft_radius, hur]; exact hxl)
  rw [resolveLeft_radius, hur] at hx2
  set w := resolveRight config (resolveLeft config u) with hw
  have hwr : w.radius = s.radius := by
    rw [hw, resolveRight_radius, resolveLeft_radius, hur]
  have hzl : -3 + s.radius ≤ (resolveFront config w).z := by
    have := resolveFront_z_lower config w
    rwa [hwr] at this
  have hz2 := resolveBack_z_bounds config (resolveFront config w)
    (by rw [resolveFront_radius, hwr]; exact hr)
    (by rw [resolveFront_radius, hwr]; exact hzl)
  rw [resolveFront_radius, hwr] at hz2
  have hxw : (resolveBack config (resolveFront config w)).x =
      (resolveFront config w).x := resolveBack_x config _
  have hxw2 : (resolveFront config w).x = w.x := resolveFront_x config _
  have hradfin : (resolveBack config (resolveFront config w)).radius =
      s.radius := by
    rw [resolveBack_radius, resolveFront_radius, hwr]
  rw [hradfin, hxw, hxw2]
  exact ⟨hx2, hz2⟩

/- Whole-step frame lemmas. -/

lemma map_stepFixed_of_map_gravFixed {o1 o2 : Option SpherePhysics}
    (h : o1.map gravFixed = o2.map gravFixed) :
    o1.map stepFixed = o2.map stepFixed := by
  cases o1 with
  | none =>
      cases o2 with
      | none => rfl
      | some b => simp at h
  | some a =>
      cases o2 with
      | none => simp at h
      | some b =>
          simp only [Option.map_some', Option.some.injEq] at h ⊢
          exact stepFixed_of_gravFixed h

lemma updatePhysics_length (l : List SpherePhysics) (config : PhysicsConfig) :
    (updatePhysics l config).length = l.length := by
  unfold updatePhysics
  simp only [List.length_map]
  split
  · exact calculateGravitationalForces_length l config
  · rfl

lemma updatePhysics_stepFixed (l : List SpherePhysics)
    (config : PhysicsConfig) (k : ℕ) :
    ((updatePhysics l config)[k]?).map stepFixed = (l[k]?).map stepFixed := by
  unfold updatePhysics
  simp only [List.getElem?_map]
  have hcomp : ∀ o : Option SpherePhysics,
      (o.map (stepBody config)).map stepFixed = o.map stepFixed := by
    intro o
    cases o with
    | none => rfl
    | some a =>
        simp only [Option.map_some', Option.some.injEq]
        exact stepBody_stepFixed config a
  rw [hcomp]
  split
  · exact map_stepFixed_of_map_gravFixed
      (calculateGravitationalForces_gravFixed l config k)
  · rfl

lemma mem_updatePhysics_stepFixed {l : List SpherePhysics}
    {config : PhysicsConfig} {s' : SpherePhysics}
    (h : s' ∈ updatePhysics l config) :
    ∃ s ∈ l, stepFixed s' = stepFixed s := by
  obtain ⟨k, hk⟩ := List.mem_iff_getElem?.mp h
  have ht := updatePhysics_stepFixed l config k
  rw [hk, Option.map_some'] at ht
  obtain ⟨s, hs, he⟩ := Option.map_eq_some'.mp ht.symm
  exact ⟨s, List.getElem?_mem hs, he.symm⟩

lemma mem_calculateGravitationalForces_gravFixed {l : List SpherePhysics}
    {config : PhysicsConfig} {s' : SpherePhysics}
    (h : s' ∈ calculateGravitationalForces l config) :
    ∃ s ∈ l, gravFixed s' = gravFixed s := by
  obtain ⟨k, hk⟩ := List.mem_iff_getElem?.mp h
  have ht := calculateGravitationalForces_gravFixed l config k
  rw [hk, Option.map_some'] at ht
  obtain ⟨s, hs, he⟩ := Option.map_eq_some'.mp ht.symm
  exact ⟨s, List.getElem?_mem hs, he.symm⟩

lemma exists_pair_containing (n k : ℕ) (hk : k < n) (hn : 2 ≤ n) :
    ∃ p ∈ pairList n, k = p.1 ∨ k = p.2 := by
  rcases Nat.lt_or_ge (k + 1) n with h | h
  · exact ⟨(k, k + 1), mem_pairList.mpr ⟨Nat.lt_succ_self k, h⟩, Or.inl rfl⟩
  · have hk1 : 0 < k := by omega
    exact ⟨(0, k), mem_pairList.mpr ⟨hk1, hk⟩, Or.inr rfl⟩

lemma updatePhysics_velInRange (l : List SpherePhysics)
    (config : PhysicsConfig) (hg : config.enableGravity = true)
    (hd0 : 0 ≤ config.bounceDamping) (hd1 : config.bounceDamping ≤ 1)
    (hn : 2 ≤ l.length)
    (hOK : ∀ p ∈ pairList l.length, pairOK l p) :
    ∀ s ∈ updatePhysics l config, velInRange s := by
  intro s hs
  simp only [updatePhysics, hg, if_true] at hs
  obtain ⟨s0, hs0, rfl⟩ := List.mem_map.mp hs
  apply stepBody_velInRange config s0 hg hd0 hd1
  obtain ⟨k, hk⟩ := List.mem_iff_getElem?.mp hs0
  have hkl : k < l.length := by
    by_contra hcon
    rw [List.getElem?_eq_none (by
      rw [calculateGravitationalForces_length]
      exact Nat.le_of_not_lt hcon)] at hk
    cases hk
  unfold calculateGravitationalForces at hk
  apply gravFold_clampedAt config (pairList l.length) l k ?_ ?_ s0 hk
  · intro q hq
    exact ⟨Nat.ne_of_lt (mem_pairList.mp hq).1, hOK q hq⟩
  · exact exists_pair_containing l.length k hkl hn

lemma updatePhysics_radius_le (l : List SpherePhysics)
    (config : PhysicsConfig) (h : ∀ s ∈ l, s.radius ≤ 3) :
    ∀ s' ∈ updatePhysics l config, s'.radius ≤ 3 := by
  intro s' hs'
  obtain ⟨s, hs, he⟩ := mem_updatePhysics_stepFixed hs'
  rw [stepFixed_radius he]
  exact h s hs

lemma updatePhysics_xz_bounds (l : List SpherePhysics)
    (config : PhysicsConfig) (h : ∀ s ∈ l, s.radius ≤ 3) :
    ∀ s' ∈ updatePhysics l config,
      (-3 + s'.radius ≤ s'.x ∧ s'.x ≤ 3 - s'.radius) ∧
      (-3 + s'.radius ≤ s'.z ∧ s'.z ≤ 3 - s'.radius) := by
  intro s' hs'
  simp only [updatePhysics] at hs'
  obtain ⟨s0, hs0, rfl⟩ := List.mem_map.mp hs'
  have hr0 : s0.radius ≤ 3 := by
    split at hs0
    · obtain ⟨s, hs, he⟩ := mem_calculateGravitationalForces_gravFixed hs0
      rw [gravFixed_radius he]
      exact h s hs
    · exact h s0 hs0
  exact stepBody_xz_bounds config s0 hr0

lemma stepN_radius_le (config : PhysicsConfig) :
    ∀ (n : ℕ) (l : List SpherePhysics), (∀ s ∈ l, s.radius ≤ 3) →
      ∀ s ∈ stepN config n l, s.radius ≤ 3 := by
  intro n
  induction n with
  | zero => intro l h s hs; exact h s hs
  | succ m ih =>
      intro l h
      exact ih (updatePhysics l config) (updatePhysics_radius_le l config h)

lemma stepN_xz_bounds (config : PhysicsConfig) :
    ∀ (n : ℕ) (l : List SpherePhysics), (∀ s ∈ l, s.radius ≤ 3) →
      ∀ s ∈ stepN config (n + 1) l,
        (-3 + s.radius ≤ s.x ∧ s.x ≤ 3 - s.radius) ∧
        (-3 + s.radius ≤ s.z ∧ s.z ≤ 3 - s.radius) := by
  intro n
  induction n with
  | zero =>
      intro l h s hs
      exact updatePhysics_xz_bounds l config h s hs
  | succ m ih =>
      intro l h
      exact ih (updatePhysics l config) (updatePhysics_radius_le l config h)

/- Evaluation helpers for one-body systems. -/

lemma calculateGravitationalForces_singleton (s : SpherePhysics)
    (config : PhysicsConfig) :
    calculateGravitationalForces [s] config = [s] := rfl

lemma updatePhysics_singleton (s : SpherePhysics) (config : PhysicsConfig) :
    updatePhysics [s] config = [stepBody config s] := by
  unfold updatePhysics
  split <;> rfl

/- Conditional evaluation rules for the individual boundary checks. -/

lemma resolveBottom_bounce (config : PhysicsConfig) (s : SpherePhysics)
    (hc : s.y - s.radius < config.bottomBoundary)
    (hb : config.enableBounce = true) :
    resolveBottom config s =
      { s with
          y := config.bottomBoundary + s.radius
          velocityY := -s.velocityY * config.bounceDamping } := by
  unfold resolveBottom
  rw [if_pos hc, if_pos hb]

lemma resolveBottom_wrap (config : PhysicsConfig) (s : SpherePhysics)
    (hc : s.y - s.radius < config.bottomBoundary)
    (hb : config.enableBounce = false) :
    resolveBottom config s =
      { s with
          y := config.topBoundary + s.radius
          velocityY := 0 } := by
  unfold resolveBottom
  rw [if_pos hc, hb]
  simp

lemma resolveBottom_skip (config : PhysicsConfig) (s : SpherePhysics)
    (hc : ¬ (s.y - s.radius < config.bottomBoundary)) :
    resolveBottom config s = s := by
  unfold resolveBottom
  rw [if_neg hc]

lemma resolveTop_clamp (config : PhysicsConfig) (s : SpherePhysics)
    (hc : s.y + s.radius > config.topBoundary) :
    resolveTop config s =
      { s with
          y := config.topBoundary - s.radius
          velocityY := 0 } := by
  unfold resolveTop
  rw [if_pos hc]

lemma resolveTop_skip (config : PhysicsConfig) (s : SpherePhysics)
    (hc : ¬ (s.y + s.radius > config.topBoundary)) :
    resolveTop config s = s := by
  unfold resolveTop
  rw [if_neg hc]

lemma resolveLeft_hit (config : PhysicsConfig) (s : SpherePhysics)
    (hc : s.x - s.radius < -3) :
    resolveLeft config s =
      { s with
          x := -3 + s.radius
          velocityX := -s.velocityX * config.bounceDamping } := by
  unfold resolveLeft
  rw [if_pos hc]

lemma resolveLeft_skip (config : PhysicsConfig) (s : SpherePhysics)
    (hc : ¬ (s.x - s.radius < -3)) :
    resolveLeft config s = s := by
  unfold resolveLeft
  rw [if_neg hc]

lemma resolveRight_hit (config : PhysicsConfig) (s : SpherePhysics)
    (hc : s.x + s.radius > 3) :
    resolveRight config s =
      { s with
          x := 3 - s.radius
          velocityX := -s.velocityX * config.bounceDamping } := by
  unfold resolveRight
  rw [if_pos hc]

lemma resolveRight_skip (config : PhysicsConfig) (s : SpherePhysics)
    (hc : ¬ (s.x + s.radius > 3)) :
    resolveRight config s = s := by
  unfold resolveRight
  rw [if_neg hc]

lemma resolveFront_hit (config : PhysicsConfig) (s : SpherePhysics)
    (hc : s.z - s.radius < -3) :
    resolveFront config s =
      { s with
          z := -3 + s.radius
          velocityZ := -s.velocityZ * config.bounceDamping } := by
  unfold resolveFront
  rw [if_pos hc]

lemma resolveFront_skip (config : PhysicsConfig) (s : SpherePhysics)
    (hc : ¬ (s.z - s.radius < -3)) :
    resolveFront config s = s := by
  unfold resolveFront
  rw [if_neg hc]

lemma resolveBack_hit (config : PhysicsConfig) (s : SpherePhysics)
    (hc : s.z + s.radius > 3) :
    resolveBack config s =
      { s with
          z := 3 - s.radius
          velocityZ := -s.velocityZ * config.bounceDamping } := by
  unfold resolveBack
  rw [if_pos hc]

lemma resolveBack_skip (config : PhysicsConfig) (s : SpherePhysics)
    (hc : ¬ (s.z + s.radius > 3)) :
    resolveBack config s = s := by
  unfold resolveBack
  rw [if_neg hc]

lemma applyUniformGravity_of_no_gravity (config : PhysicsConfig)
    (s : SpherePhysics) (hg : config.enableGravity = false) :
    applyUniformGravity config s =
      { s with velocityY := s.velocityY - config.gravity * config.deltaTime } := by
  unfold applyUniformGravity
  rw [hg]
  simp

lemma c2_eval (config : PhysicsConfig) (s : SpherePhysics)
    (htop : config.topBoundary = 2) (hbot : config.bottomBoundary = -2)
    (hbounce : config.enableBounce = false) (hg : config.enableGravity = true)
    (hdt : 0 ≤ config.deltaTime)
    (hy : s.y = -2.1) (hvy : s.velocityY = -1) (hr : s.radius = 0.4)
    (hx : s.x = 0) (hvx : s.velocityX = 0) (hz : s.z = 0)
    (hvz : s.velocityZ = 0) :
    (updatePhysics [s] config).map (fun b => (b.y, b.velocityY)) =
      [((1.6 : ℝ), (0 : ℝ))] := by
  rw [updatePhysics_singleton]
  simp only [List.map_cons, List.map_nil]
  unfold stepBody
  rw [applyUniformGravity_of_gravity _ _ hg]
  set s2 := integratePosition config s with hs2
  have h2y : s2.y = -2.1 + -1 * config.deltaTime := by
    rw [hs2]
    show s.y + s.velocityY * config.deltaTime = _
    rw [hy, hvy]
  have h2r : s2.radius = 0.4 := by
    rw [hs2]
    show s.radius = _
    exact hr
  have h2x : s2.x = 0 := by
    rw [hs2]
    show s.x + s.velocityX * config.deltaTime = _
    rw [hx, hvx]
    ring
  have h2z : s2.z = 0 := by
    rw [hs2]
    show s.z + s.velocityZ * config.deltaTime = _
    rw [hz, hvz]
    ring
  rw [resolveBottom_wrap config s2 (by rw [h2y, h2r, hbot]; linarith) hbounce]
  set s3 : SpherePhysics :=
    { s2 with y := config.topBoundary + s2.radius, velocityY := 0 } with hs3
  have h3y : s3.y = 2.4 := by
    rw [hs3]
    show config.topBoundary + s2.radius = _
    rw [htop, h2r]
    norm_num
  have h3r : s3.radius = 0.4 := by
    rw [hs3]
    show s2.radius = _
    exact h2r
  rw [resolveTop_clamp config s3 (by rw [h3y, h3r, htop]; norm_num)]
  set s4 : SpherePhysics :=
    { s3 with y := config.topBoundary - s3.radius, velocityY := 0 } with hs4
  have h4x : s4.x = 0 := by
    rw [hs4]
    show s3.x = _
    rw [hs3]
    show s2.x = _
    exact h2x
  have h4z : s4.z = 0 := by
    rw [hs4]
    show s3.z = _
    rw [hs3]
    show s2.z = _
    exact h2z
  have h4r : s4.radius = 0.4 := by
    rw [hs4]
    show s3.radius = _
    exact h3r
  rw [resolveLeft_skip config s4 (by rw [h4x, h4r]; norm_num),
    resolveRight_skip config s4 (by rw [h4x, h4r]; norm_num),
    resolveFront_skip config s4 (by rw [h4z, h4r]; norm_num),
    resolveBack_skip config s4 (by rw [h4z, h4r]; norm_num)]
  have h4y : s4.y = 1.6 := by
    rw [hs4]
    show config.topBoundary - s3.radius = _
    rw [htop, h3r]
    norm_num
  have h4vy : s4.velocityY = 0 := by
    rw [hs4]
  rw [h4y, h4vy]

/-- C2, counterexample: with `topBoundary = 2`, `bottomBoundary = -2`,
bounce disabled, a body of radius 0.4 at `y = -2.1` with
`velocityY = -1` ends the step at `y = 1.6`, not at the claimed
`y = 2.4`: the wrap to `topBoundary + radius = 2.4` is immediately
re-clamped by the independent top-boundary check. -/
theorem claimC2_counterexample :
    (updatePhysics [c2Body] c2Config).map (fun b => (b.y, b.velocityY)) =
      [((1.6 : ℝ), (0 : ℝ))] ∧
    ((1.6 : ℝ), (0 : ℝ)) ≠ ((2.4 : ℝ), (0 : ℝ)) := by
  constructor
  · exact c2_eval c2Config c2Body rfl rfl rfl rfl
      (by norm_num [c2Config, defaultConfig]) rfl rfl rfl rfl rfl rfl rfl
  · intro h
    rw [Prod.mk.injEq] at h
    norm_num at h

/-- C2 (amended): with `topBoundary = 2.0`, `bottomBoundary = -2.0`,
bounce disabled, gravitational attraction enabled, and any nonnegative
`deltaTime`, a single body of radius 0.4 at `y = -2.1` with
`velocityY = -1.0` and no horizontal motion has, after exactly one call
to `updatePhysics`, `y = 1.6` and `velocityY = 0.0`: the wrap sets
`y = topBoundary + radius = 2.4`, and the independent top-boundary check
of the same step re-clamps it to `topBoundary - radius = 1.6`. -/
theorem claimC2_amended (config : PhysicsConfig) (s : SpherePhysics)
    (htop : config.topBoundary = 2) (hbot : config.bottomBoundary = -2)
    (hbounce : config.enableBounce = false) (hg : config.enableGravity = true)
    (hdt : 0 ≤ config.deltaTime)
    (hy : s.y = -2.1) (hvy : s.velocityY = -1) (hr : s.radius = 0.4)
    (hx : s.x = 0) (hvx : s.velocityX = 0) (hz : s.z = 0)
    (hvz : s.velocityZ = 0) :
    (updatePhysics [s] config).map (fun b => (b.y, b.velocityY)) =
      [((1.6 : ℝ), (0 : ℝ))] :=
  c2_eval config s htop hbot hbounce hg hdt hy hvy hr hx hvx hz hvz

/-- C2, witness for the amended theorem at the concrete wrap scenario. -/
theorem claimC2_witness :
    (updatePhysics [c2Body] c2Config).map (fun b => (b.y, b.velocityY)) =
      [((1.6 : ℝ), (0 : ℝ))] :=
  claimC2_amended c2Config c2Body rfl rfl rfl rfl
    (by norm_num [c2Config, defaultConfig]) rfl rfl rfl rfl rfl rfl rfl

/-- C6: when bounce is enabled and the integrated body violates the
bottom boundary (and the body fits between the boundaries so the top
check cannot re-fire), the step ends with
`y = bottomBoundary + radius` and the vertical velocity reflected and
scaled by `bounceDamping`. -/
theorem claimC6 (config : PhysicsConfig) (s : SpherePhysics)
    (hb : config.enableBounce = true)
    (hviol :
      (integratePosition config (applyUniformGravity config s)).y -
        (integratePosition config (applyUniformGravity config s)).radius <
        config.bottomBoundary)
    (hfit : config.bottomBoundary + 2 * s.radius ≤ config.topBoundary) :
    (stepBody config s).y = config.bottomBoundary + s.radius ∧
    (stepBody config s).velocityY =
      -(integratePosition config (applyUniformGravity config s)).velocityY *
        config.bounceDamping := by
  have hur : (integratePosition config (applyUniformGravity config s)).radius
      = s.radius := by
    have h1 := integratePosition_stepFixed config (applyUniformGravity config s)
    have h2 := applyUniformGravity_stepFixed config s
    exact stepFixed_radius (by rw [h1, h2])
  unfold stepBody
  set u := integratePosition config (applyUniformGravity config s) with hu
  rw [resolveBottom_bounce config u hviol hb]
  set v : SpherePhysics :=
    { u with
        y := config.bottomBoundary + u.radius
        velocityY := -u.velocityY * config.bounceDamping } with hv
  have hvy : v.y = config.bottomBoundary + s.radius := by
    rw [hv]
    show config.bottomBoundary + u.radius = _
    rw [hur]
  have hvr : v.radius = s.radius := by
    rw [hv]
    show u.radius = _
    exact hur
  rw [resolveTop_skip config v (by rw [hvy, hvr]; push_neg; linarith)]
  rw [resolveBack_y, resolveFront_y, resolveRight_y, resolveLeft_y,
    resolveBack_velocityY, resolveFront_velocityY, resolveRight_velocityY,
    resolveLeft_velocityY]
  exact ⟨hvy, by rw [hv]⟩

/-- C6, witness: with `bounceDamping = 0.8` a body hitting the bottom
boundary with `velocityY = -3` rebounds with `velocityY = 2.4`. -/
theorem claimC6_witness :
    (stepBody c6Config c6Body).y = -1.6 ∧
    (stepBody c6Config c6Body).velocityY = 2.4 := by
  have h := claimC6 c6Config c6Body rfl
    (by norm_num [c6Config, c6Body, defaultConfig, integratePosition,
      applyUniformGravity])
    (by norm_num [c6Config, c6Body, defaultConfig])
  constructor
  · rw [h.1]
    norm_num [c6Config, c6Body, defaultConfig]
  · rw [h.2]
    norm_num [c6Config, c6Body, defaultConfig, integratePosition,
      applyUniformGravity]

/-- C8, counterexample: with uniform gravity active (enableGravity
false), a body resting at `bottomBoundary + radius` with zero vertical
velocity IS perturbed by a step: gravity pulls it below the boundary
within the step and the bounce injects
`velocityY = gravity * deltaTime * bounceDamping = 49/300 ≠ 0`. -/
theorem claimC8_counterexample :
    (updatePhysics [c8Body] c8Config).map (fun b => (b.y, b.velocityY)) =
      [((-1.6 : ℝ), (49 / 300 : ℝ))] ∧ ((49 : ℝ) / 300 ≠ 0) := by
  constructor
  · rw [updatePhysics_singleton]
    norm_num [stepBody, applyUniformGravity, integratePosition,
      resolveBottom, resolveTop, resolveLeft, resolveRight, resolveFront,
      resolveBack, c8Body, c8Config, defaultConfig]
  · norm_num

/-- C8 (amended): a body resting exactly at `bottomBoundary + radius`
with zero vertical velocity, bounce enabled, and fitting below the top
boundary is vertically unperturbed by a further `updatePhysics` call when
pairwise gravity is enabled (no other bodies); when pairwise gravity is
disabled, the uniform field pulls it below the boundary within the step,
its position is restored, but the bounce leaves it with
`velocityY = gravity * deltaTime * bounceDamping`. -/
theorem claimC8_amended (config : PhysicsConfig) (s : SpherePhysics)
    (hb : config.enableBounce = true)
    (hy : s.y = config.bottomBoundary + s.radius) (hvy : s.velocityY = 0)
    (hfit : config.bottomBoundary + 2 * s.radius ≤ config.topBoundary)
    (hg0 : 0 ≤ config.gravity) (hdt : 0 ≤ config.deltaTime) :
    (config.enableGravity = true →
      (updatePhysics [s] config).map (fun b => (b.y, b.velocityY)) =
        [(s.y, (0 : ℝ))]) ∧
    (config.enableGravity = false →
      (updatePhysics [s] config).map (fun b => (b.y, b.velocityY)) =
        [(s.y, config.gravity * config.deltaTime * config.bounceDamping)]) := by
  constructor
  · intro hg
    rw [updatePhysics_singleton]
    simp only [List.map_cons, List.map_nil]
    unfold stepBody
    rw [applyUniformGravity_of_gravity _ _ hg]
    set u := integratePosition config s with hu
    have huy : u.y = s.y := by
      rw [hu]
      show s.y + s.velocityY * config.deltaTime = s.y
      rw [hvy]
      ring
    have huvy : u.velocityY = 0 := by
      rw [hu]
      show s.velocityY = 0
      exact hvy
    have hur : u.radius = s.radius := by
      rw [hu]
      show s.radius = _
      rfl
    rw [resolveBottom_skip config u (by rw [huy, hur, hy]; push_neg; linarith)]
    rw [resolveTop_skip config u (by rw [huy, hur, hy]; push_neg; linarith)]
    rw [resolveBack_y, resolveFront_y, resolveRight_y, resolveLeft_y,
      resolveBack_velocityY, resolveFront_velocityY, resolveRight_velocityY,
      resolveLeft_velocityY, huy, huvy]
  · intro hg
    rw [updatePhysics_singleton]
    simp only [List.map_cons, List.map_nil]
    unfold stepBody
    rw [applyUniformGravity_of_no_gravity _ _ hg]
    set u := integratePosition config
      { s with velocityY := s.velocityY - config.gravity * config.deltaTime }
      with hu
    have huy : u.y = s.y - config.gravity * config.deltaTime *
        config.deltaTime := by
      rw [hu]
      show s.y + (s.velocityY - config.gravity * config.deltaTime) *
        config.deltaTime = _
      rw [hvy]
      ring
    have huvy : u.velocityY = -(config.gravity * config.deltaTime) := by
      rw [hu]
      show s.velocityY - config.gravity * config.deltaTime = _
      rw [hvy]
      ring
    have hur : u.radius = s.radius := by
      rw [hu]
      show s.radius = _
      rfl
    rcases eq_or_lt_of_le
        (mul_nonneg (mul_nonneg hg0 hdt) hdt :
          0 ≤ config.gravity * config.deltaTime * config.deltaTime)
      with h0 | hpos
    · have hgdt : config.gravity * config.deltaTime = 0 := by
        rcases mul_eq_zero.mp h0.symm with h | h
        · exact h
        · rw [h, mul_zero]
      rw [resolveBottom_skip config u
        (by rw [huy, hur, hy, ← h0]; push_neg; linarith)]
      rw [resolveTop_skip config u
        (by rw [huy, hur, hy, ← h0]; push_neg; linarith)]
      rw [resolveBack_y, resolveFront_y, resolveRight_y, resolveLeft_y,
        resolveBack_velocityY, resolveFront_velocityY, resolveRight_velocityY,
        resolveLeft_velocityY, huy, huvy, ← h0, hgdt]
      norm_num
    · rw [resolveBottom_bounce config u
        (by rw [huy, hur, hy]; linarith) hb]
      set v : SpherePhysics :=
        { u with
            y := config.bottomBoundary + u.radius
            velocityY := -u.velocityY * config.bounceDamping } with hv
      have hvyy : v.y = s.y := by
        rw [hv]
        show config.bottomBoundary + u.radius = _
        rw [hur, hy]
      have hvvy : v.velocityY =
          config.gravity * config.deltaTime * config.bounceDamping := by
        rw [hv]
        show -u.velocityY * config.bounceDamping = _
        rw [huvy]
        ring
      have hvr : v.radius = s.radius := by
        rw [hv]
        show u.radius = _
        exact hur
      rw [resolveTop_skip config v
        (by rw [hvyy, hvr, hy]; push_neg; linarith)]
      rw [resolveBack_y, resolveFront_y, resolveRight_y, resolveLeft_y,
        resolveBack_velocityY, resolveFront_velocityY, resolveRight_velocityY,
        resolveLeft_velocityY, hvyy, hvvy]

/-- C8, witness for the amended theorem: the resting body with pairwise
gravity disabled ends the step with
`velocityY = 9.8 * (1/60) * 1 = 49/300`. -/
theorem claimC8_witness :
    (updatePhysics [c8Body] c8Config).map (fun b => (b.y, b.velocityY)) =
      [(c8Body.y, c8Config.gravity * c8Config.deltaTime *
        c8Config.bounceDamping)] := by
  have h := claimC8_amended c8Config c8Body rfl
    (by norm_num [c8Body, c8Config, defaultConfig])
    rfl
    (by norm_num [c8Body, c8Config, defaultConfig])
    (by norm_num [c8Config, defaultConfig])
    (by norm_num [c8Config, defaultConfig])
  exact h.2 rfl

/-- C7: (1) after at least one step every body's center stays inside
`[-3 + radius, 3 - radius]` on X and Z, for any configuration and any
initial state with radii at most 3; (2) the four horizontal wall checks
ignore every configuration field except `bounceDamping` (in particular
`enableBounce`); (3) on violation they clamp the position to the wall
offset by the radius and reflect the velocity component scaled by
`bounceDamping`. -/
theorem claimC7 :
    (∀ (config : PhysicsConfig) (l : List SpherePhysics) (n : ℕ),
        1 ≤ n → (∀ s ∈ l, s.radius ≤ 3) →
        ∀ s ∈ stepN config n l,
          (-3 + s.radius ≤ s.x ∧ s.x ≤ 3 - s.radius) ∧
          (-3 + s.radius ≤ s.z ∧ s.z ≤ 3 - s.radius)) ∧
    (∀ (c1 c2 : PhysicsConfig) (s : SpherePhysics),
        c1.bounceDamping = c2.bounceDamping →
        resolveLeft c1 s = resolveLeft c2 s ∧
        resolveRight c1 s = resolveRight c2 s ∧
        resolveFront c1 s = resolveFront c2 s ∧
        resolveBack c1 s = resolveBack c2 s) ∧
    (∀ (config : PhysicsConfig) (s : SpherePhysics),
        (s.x - s.radius < -3 →
          resolveLeft config s =
            { s with
                x := -3 + s.radius
                velocityX := -s.velocityX * config.bounceDamping }) ∧
        (s.x + s.radius > 3 →
          resolveRight config s =
            { s with
                x := 3 - s.radius
                velocityX := -s.velocityX * config.bounceDamping }) ∧
        (s.z - s.radius < -3 →
          resolveFront config s =
            { s with
                z := -3 + s.radius
                velocityZ := -s.velocityZ * config.bounceDamping }) ∧
        (s.z + s.radius > 3 →
          resolveBack config s =
            { s with
                z := 3 - s.radius
                velocityZ := -s.velocityZ * config.bounceDamping })) := by
  refine ⟨?_, ?_, ?_⟩
  · intro config l n hn hr s hs
    obtain ⟨m, rfl⟩ : ∃ m, n = m + 1 :=
      ⟨n - 1, by omega⟩
    exact stepN_xz_bounds config m l hr s hs
  · intro c1 c2 s h
    refine ⟨?_, ?_, ?_, ?_⟩
    · unfold resolveLeft
      split_ifs <;> first | rw [h] | rfl
    · unfold resolveRight
      split_ifs <;> first | rw [h] | rfl
    · unfold resolveFront
      split_ifs <;> first | rw [h] | rfl
    · unfold resolveBack
      split_ifs <;> first | rw [h] | rfl
  · intro config s
    exact ⟨resolveLeft_hit config s, resolveRight_hit config s,
      resolveFront_hit config s, resolveBack_hit config s⟩

lemma stepBody_restBody : stepBody defaultConfig restBody = restBody := by
  norm_num [stepBody, applyUniformGravity, integratePosition, resolveBottom,
    resolveTop, resolveLeft, resolveRight, resolveFront, resolveBack,
    restBody, defaultConfig]

/-- C7, witness: the resting body after one default step satisfies the
horizontal containment bounds. -/
theorem claimC7_witness :
    ((-3 + (0.4 : ℝ) ≤ 0 ∧ (0 : ℝ) ≤ 3 - 0.4) ∧
      (-3 + (0.4 : ℝ) ≤ 0 ∧ (0 : ℝ) ≤ 3 - 0.4)) := by
  have hstep : stepN defaultConfig 1 [restBody] = [restBody] := by
    show updatePhysics [restBody] defaultConfig = [restBody]
    rw [updatePhysics_singleton, stepBody_restBody]
  have hmem : restBody ∈ stepN defaultConfig 1 [restBody] := by
    rw [hstep]
    exact List.mem_singleton.mpr rfl
  have h := claimC7.1 defaultConfig [restBody] 1 le_rfl
    (by
      intro s hs
      rw [List.mem_singleton.mp hs]
      norm_num [restBody])
    restBody hmem
  simpa [restBody] using h

/-- C5: one `updatePhysics` step is exactly: pairwise forces first (when
enabled), then for every body the spec-worded integrator (uniform
downward acceleration if and only if pairwise gravity is disabled,
followed by position advance with the already-updated velocity), then
the boundary checks. -/
theorem claimC5 (l : List SpherePhysics) (config : PhysicsConfig) :
    updatePhysics l config =
      (if config.enableGravity then calculateGravitationalForces l config
        else l).map
        (fun b => resolveBack config (resolveFront config (resolveRight config
          (resolveLeft config (resolveTop config (resolveBottom config
            (integratorSpec config b))))))) := by
  unfold updatePhysics
  apply List.map_congr_left
  intro b _
  unfold stepBody
  have hkey : integratePosition config (applyUniformGravity config b) =
      integratorSpec config b := by
    unfold integratePosition applyUniformGravity integratorSpec
    cases hg : config.enableGravity with
    | false => simp [hg]
    | true => simp [hg]
  rw [hkey]

/- The zero-distance guard. -/

lemma set_getElem?_self {α : Type*} {l : List α} {i : ℕ} {a : α}
    (h : l[i]? = some a) : l.set i a = l := by
  apply List.ext_getElem?
  intro k
  by_cases hk : k = i
  · subst hk
    have hlt : k < l.length := by
      by_contra hcon
      rw [List.getElem?_eq_none (Nat.le_of_not_lt hcon)] at h
      cases h
    rw [List.getElem?_set_self hlt, h]
  · rw [List.getElem?_set_ne (Ne.symm hk)]

/-- C9: two bodies at identical centers form a guarded no-op pair: the
pair-interaction returns both bodies unchanged, and writing the result
back leaves the whole sphere list unchanged (no velocity of either body
is modified on account of the pair, and no error is possible since the
function is total). -/
theorem claimC9 (config : PhysicsConfig) (s1 s2 : SpherePhysics)
    (h : s1.x = s2.x ∧ s1.y = s2.y ∧ s1.z = s2.z) :
    gravPair config s1 s2 = (s1, s2) ∧
    (∀ (l : List SpherePhysics) (i j : ℕ),
      l[i]? = some s1 → l[j]? = some s2 → applyPairAt config l (i, j) = l) := by
  obtain ⟨hx, hy, hz⟩ := h
  have hpair : gravPair config s1 s2 = (s1, s2) := by
    simp only [gravPair]
    rw [if_neg (by simp [← hx, ← hy, ← hz])]
  refine ⟨hpair, ?_⟩
  intro l i j h1 h2
  unfold applyPairAt
  rw [h1, h2]
  dsimp only
  rw [hpair]
  dsimp only
  rw [set_getElem?_self h1, set_getElem?_self h2]

/-- C9, witness: two bodies at the exact same center are a no-op pair for
the force pass. -/
theorem claimC9_witness :
    gravPair defaultConfig restBody coincidentBody =
      (restBody, coincidentBody) ∧
    applyPairAt defaultConfig [restBody, coincidentBody] (0, 1) =
      [restBody, coincidentBody] := by
  have h := claimC9 defaultConfig restBody coincidentBody
    (by norm_num [restBody, coincidentBody])
  exact ⟨h.1, h.2 [restBody, coincidentBody] 0 1 rfl rfl⟩

/- Frame conditions. -/

lemma map_proj_congr {α β γ : Type} (g : α → β) (f : α → γ)
    (hf : ∀ a b, g a = g b → f a = f b) :
    ∀ {o1 o2 : Option α}, o1.map g = o2.map g → o1.map f = o2.map f := by
  intro o1 o2 h
  cases o1 with
  | none =>
      cases o2 with
      | none => rfl
      | some b => simp at h
  | some a =>
      cases o2 with
      | none => simp at h
      | some b =>
          simp only [Option.map_some', Option.some.injEq] at h ⊢
          exact hf a b h

lemma gravFixed_mass {a b : SpherePhysics} (h : gravFixed a = gravFixed b) :
    a.mass = b.mass := congrArg (fun t => t.2.2.2.2.1) h

lemma gravFixed_color {a b : SpherePhysics} (h : gravFixed a = gravFixed b) :
    a.color = b.color := congrArg (fun t => t.2.2.2.2.2) h

/-- C10: a physics step changes neither the number of bodies nor any
body's mass, radius or color, and the force pass additionally leaves
every body's position unchanged (it only writes velocities). -/
theorem claimC10 :
    (∀ (l : List SpherePhysics) (config : PhysicsConfig),
        (updatePhysics l config).length = l.length) ∧
    (∀ (l : List SpherePhysics) (config : PhysicsConfig) (k : ℕ),
        ((updatePhysics l config)[k]?).map
            (fun s => (s.mass, s.radius, s.color)) =
          (l[k]?).map (fun s => (s.mass, s.radius, s.color))) ∧
    (∀ (l : List SpherePhysics) (config : PhysicsConfig),
        (calculateGravitationalForces l config).length = l.length) ∧
    (∀ (l : List SpherePhysics) (config : PhysicsConfig) (k : ℕ),
        ((calculateGravitationalForces l config)[k]?).map
            (fun s => (s.x, s.y, s.z, s.mass, s.radius, s.color)) =
          (l[k]?).map (fun s => (s.x, s.y, s.z, s.mass, s.radius, s.color))) := by
  refine ⟨updatePhysics_length, ?_, calculateGravitationalForces_length, ?_⟩
  · intro l config k
    exact map_proj_congr stepFixed _
      (fun a b h => by
        rw [stepFixed_mass h, stepFixed_radius h, stepFixed_color h])
      (updatePhysics_stepFixed l config k)
  · intro l config k
    exact map_proj_congr gravFixed _
      (fun a b h => by
        rw [gravFixed_x h, gravFixed_y h, gravFixed_z h, gravFixed_mass h,
          gravFixed_radius h, gravFixed_color h])
      (calculateGravitationalForces_gravFixed l config k)

lemma c1_gravPair_eval : gravPair c1Config c1s1 c1s2 = (c1g1, c1g2) := by
  norm_num [gravPair, clampV, c1Config, c1s1, c1s2, c1g1, c1g2,
    Real.sqrt_one]

lemma c1_forces_eval :
    calculateGravitationalForces [c1s1, c1s2] c1Config = [c1g1, c1g2] := by
  show (pairList 2).foldl (applyPairAt c1Config) [c1s1, c1s2] = _
  rw [show pairList 2 = [(0, 1)] from rfl, List.foldl_cons, List.foldl_nil]
  unfold applyPairAt
  simp only [List.getElem?_cons_zero, List.getElem?_cons_succ]
  rw [c1_gravPair_eval]
  rfl

lemma c1_eval : updatePhysics [c1s1, c1s2] c1Config = [c1r1, c1r2] := by
  unfold updatePhysics
  rw [if_pos (show c1Config.enableGravity = true from rfl), c1_forces_eval]
  rw [List.map_cons, List.map_cons, List.map_nil]
  have h1 : stepBody c1Config c1g1 = c1r1 := by
    norm_num [stepBody, applyUniformGravity, integratePosition,
      resolveBottom, resolveTop, resolveLeft, resolveRight, resolveFront,
      resolveBack, c1Config, c1g1, c1r1]
  have h2 : stepBody c1Config c1g2 = c1r2 := by
    norm_num [stepBody, applyUniformGravity, integratePosition,
      resolveBottom, resolveTop, resolveLeft, resolveRight, resolveFront,
      resolveBack, c1Config, c1g2, c1r2]
  rw [h1, h2]

/-- C1: the code applies to body 2 the negated velocity delta of body 1
(`acc1 = F/mass1` for both bodies) instead of `F/mass2`, so with unequal
masses the total momentum is NOT conserved even with gravity enabled,
bounce disabled and no boundary contact: at the concrete two-body input
it moves from `0` to `-3/5` in a single step, contradicting the code's
own "Apply opposite force to sphere2" intent. -/
theorem claimC1_code_bug :
    momentumX [c1s1, c1s2] = 0 ∧
    momentumX (updatePhysics [c1s1, c1s2] c1Config) = -(3 / 5) ∧
    momentumX (updatePhysics [c1s1, c1s2] c1Config) ≠ momentumX [c1s1, c1s2] := by
  have h1 : momentumX [c1s1, c1s2] = 0 := by
    norm_num [momentumX, c1s1, c1s2]
  have h2 : momentumX (updatePhysics [c1s1, c1s2] c1Config) = -(3 / 5) := by
    rw [c1_eval]
    norm_num [momentumX, c1r1, c1r2]
  refine ⟨h1, h2, ?_⟩
  rw [h1, h2]
  norm_num

/-- C3, counterexample: with `enableGravity` false (uniform-gravity
mode) no clamping happens at all — a body entering the step with
`velocityX = 50` still has `velocityX = 50 > 10` afterwards, so the claim
fails for that gravity mode (and hence for "any configuration"). -/
theorem claimC3_counterexample :
    (updatePhysics [fastBody] c8Config).map (fun b => b.velocityX) =
      [(50 : ℝ)] ∧ ¬ (|(50 : ℝ)| ≤ 10) := by
  constructor
  · rw [updatePhysics_singleton]
    norm_num [stepBody, applyUniformGravity, integratePosition,
      resolveBottom, resolveTop, resolveLeft, resolveRight, resolveFront,
      resolveBack, fastBody, c8Config, defaultConfig]
  · norm_num

/-- C3 (amended): when `enableGravity` is true, the list holds at least
two bodies, every index pair visited by the force loop holds two bodies
with distinct centers, and `bounceDamping` lies in `[0, 1]`, every
velocity component of every body has absolute value at most 10 after
`updatePhysics`: the force pass clamps each body in the last pair that
touches it, and the boundary checks only damp, zero or reflect
velocities afterwards. -/
theorem claimC3_amended (l : List SpherePhysics) (config : PhysicsConfig)
    (hg : config.enableGravity = true)
    (hd0 : 0 ≤ config.bounceDamping) (hd1 : config.bounceDamping ≤ 1)
    (hn : 2 ≤ l.length)
    (hOK : ∀ p ∈ pairList l.length, pairOK l p) :
    ∀ s ∈ updatePhysics l config,
      |s.velocityX| ≤ 10 ∧ |s.velocityY| ≤ 10 ∧ |s.velocityZ| ≤ 10 :=
  updatePhysics_velInRange l config hg hd0 hd1 hn hOK

/-- C3, witness: the two-body unit-distance system satisfies all the
amended hypotheses, and its first output body is clamped. -/
theorem claimC3_witness :
    |(3 / 10 : ℝ)| ≤ 10 ∧ |(0 : ℝ)| ≤ 10 ∧ |(0 : ℝ)| ≤ 10 := by
  have hOK : ∀ p ∈ pairList ([c1s1, c1s2] : List SpherePhysics).length,
      pairOK [c1s1, c1s2] p := by
    intro p hp
    rw [show pairList ([c1s1, c1s2] : List SpherePhysics).length =
      [((0 : ℕ), (1 : ℕ))] from rfl] at hp
    rw [List.mem_singleton.mp hp]
    exact ⟨c1s1, c1s2, rfl, rfl, by norm_num [posEq, c1s1, c1s2]⟩
  have h := claimC3_amended [c1s1, c1s2] c1Config rfl
    (by norm_num [c1Config]) (by norm_num [c1Config]) (by norm_num) hOK
  have hm : c1r1 ∈ updatePhysics [c1s1, c1s2] c1Config := by
    rw [c1_eval]
    exact List.mem_cons_self _ _
  have hr := h c1r1 hm
  simpa [c1r1] using hr

lemma filter_range_eq_range' (i : ℕ) :
    ∀ n : ℕ, (List.range n).filter (fun j => i < j) =
      List.range' (i + 1) (n - (i + 1)) := by
  intro n
  induction n with
  | zero => simp
  | succ m ih =>
      rw [List.range_succ, List.filter_append, ih]
      by_cases h : i < m
      · have hm : m + 1 - (i + 1) = (m - (i + 1)) + 1 := by omega
        rw [hm, List.range'_1_concat]
        have hend : i + 1 + (m - (i + 1)) = m := by omega
        rw [hend]
        simp [h]
      · have hm : m + 1 - (i + 1) = m - (i + 1) := by omega
        rw [hm]
        simp [h]

lemma specPairs_eq_pairList (n : ℕ) : specPairs n = pairList n := by
  unfold specPairs pairList
  simp only [filter_range_eq_range']

lemma sqrt_pos_iff_ne (x : ℝ) : 0 < Real.sqrt x ↔ Real.sqrt x ≠ 0 :=
  ⟨fun h => ne_of_gt h,
   fun h => lt_of_le_of_ne (Real.sqrt_nonneg x) (Ne.symm h)⟩

lemma applyPairAt_eq_specPairUpdate (config : PhysicsConfig)
    (l : List SpherePhysics) (p : ℕ × ℕ) :
    applyPairAt config l p = specPairUpdate config l p := by
  unfold applyPairAt specPairUpdate
  rcases h1 : l[p.1]? with _ | s1 <;> rcases h2 : l[p.2]? with _ | s2 <;>
    try rfl
  dsimp only
  by_cases hD : Real.sqrt ((s2.x - s1.x) * (s2.x - s1.x) +
      (s2.y - s1.y) * (s2.y - s1.y) + (s2.z - s1.z) * (s2.z - s1.z)) = 0
  · rw [if_neg (not_not_intro hD)]
    simp only [gravPair]
    rw [if_neg (by rw [hD]; exact lt_irrefl 0)]
    dsimp only
    rw [set_getElem?_self h1, set_getElem?_self h2]
  · rw [if_pos hD]
    simp only [gravPair]
    rw [if_pos ((sqrt_pos_iff_ne _).mpr hD)]
    simp only [specDelta]
    congr 2 <;> congr 1 <;> ring_nf

/-- C4: with gravity enabled, the force pass is exactly a left fold over
every unordered index pair `(i, j)`, `i < j`, in ascending `i` then
ascending `j` order, where each pair at nonzero distance adds the
claim's velocity delta `(F / mass_i) * unit(d) * deltaTime` to body `i`
and the exact negation of that same delta to body `j` (components
clamped), with `d = position_j - position_i` and
`F = gravitationalConstant * mass_i * mass_j /
(distance * distanceScale)^2`. -/
theorem claimC4 (l : List SpherePhysics) (config : PhysicsConfig) :
    calculateGravitationalForces l config =
      (specPairs l.length).foldl (specPairUpdate config) l := by
  unfold calculateGravitationalForces
  rw [specPairs_eq_pairList,
    show applyPairAt config = specPairUpdate config from
      funext fun l' => funext fun p => applyPairAt_eq_specPairUpdate config l' p]

end
